import Mathlib

/-!
Shallow embedding of the api_yamdb review service (Django REST Framework
application): the review/catalog data model of `reviews/models.py`, the
rating annotation of `api/views.py` with the read serializer of
`reviews/serializers.py`, the validation pipeline of `ReviewSerializer`,
the cascade/SET_NULL deletion semantics of the models, the permission
classes of `users/permissions.py`, and the signup / token-obtain flow of
`users/views.py` and `users/serializers.py`.
-/

namespace YaMDb

/-- User record, from `users/models.py` (`User(AbstractUser)`): username and
email are unique, `role` is one of the strings `user`, `moderator`,
`admin` (default `user`), `confirmation_code` is a stored string credential,
and `is_superuser` comes from `AbstractUser`. -/
structure UserRec where
  id : Nat
  username : String
  email : String
  role : String
  is_superuser : Bool
  confirmationCode : String
  isActive : Bool
deriving Repr, DecidableEq

/-- `User.is_admin` property (`users/models.py`):
`self.role == 'admin' or self.is_superuser`. -/
def UserRec.is_admin (u : UserRec) : Bool :=
  u.role == "admin" || u.is_superuser

/-- `User.is_moderator` property (`users/models.py`):
`self.role == 'moderator'`. -/
def UserRec.is_moderator (u : UserRec) : Bool :=
  u.role == "moderator"

/-- Category record (`reviews/models.py`): unique name and slug. -/
structure Category where
  id : Nat
  name : String
  slug : String
deriving Repr, DecidableEq

/-- Title record (`reviews/models.py`): `category` is a nullable foreign key
with `on_delete=SET_NULL`, `genre` is a many-to-many link, `description`
is nullable. -/
structure Title where
  id : Nat
  name : String
  year : Int
  categoryId : Option Nat
  description : Option String
  genreIds : List Nat
deriving Repr, DecidableEq

/-- Review record (`reviews/models.py`): `title` is a foreign key with
`on_delete=CASCADE`, `author` is a nullable foreign key, `score` is an
`IntegerField`. -/
structure Review where
  id : Nat
  titleId : Nat
  authorId : Option Nat
  text : String
  score : Int
deriving Repr, DecidableEq

/-- Comment record (`reviews/models.py`): `review` is a foreign key with
`on_delete=CASCADE`, `author` is a nullable foreign key. -/
structure Comment where
  id : Nat
  reviewId : Nat
  authorId : Option Nat
  text : String
deriving Repr, DecidableEq

/-- The relational store backing the catalog/review tables. -/
structure Store where
  categories : List Category
  titles : List Title
  reviews : List Review
  comments : List Comment
deriving Repr, DecidableEq

/-- Scores of the reviews currently attached to a title
(the `reviews__score` column set aggregated by `Avg` in
`TitleViewSet.queryset`). -/
def titleScores (s : Store) (t : Nat) : List Int :=
  (s.reviews.filter (fun r => r.titleId == t)).map Review.score

/-- SQL `Avg('reviews__score')` of `api/views.py` `TitleViewSet.queryset`:
`NULL` when the title has no reviews, otherwise the exact arithmetic mean
of the scores. -/
def avgRating (s : Store) (t : Nat) : Option ℚ :=
  let scores := titleScores s t
  if scores.length = 0 then none
  else some ((scores.map (fun z => (z : ℚ))).sum / (scores.length : ℚ))

/-- Python `int(...)` on a rational value: truncation toward zero. This is
what DRF `IntegerField.to_representation` applies to the annotated average. -/
def pyInt (q : ℚ) : ℤ :=
  if 0 ≤ q then Int.floor q else Int.ceil q

/-- The rating exposed by the read interface: the `rating` field of
`TitleReadSerializer` (`reviews/serializers.py`), a read-only
`IntegerField` rendering the `Avg` annotation of `TitleViewSet.queryset`;
`None` values are passed through as `null`, other values go through
Python `int(...)`. -/
def exposedRating (s : Store) (t : Nat) : Option Int :=
  (avgRating s t).map pyInt

/-- Validation errors surfaced by the API (400 for serializer validation,
404 for `get_object_or_404`). -/
inductive ApiError where
  | notFound : ApiError
  | validation : String → ApiError
deriving Repr, DecidableEq

/-- Score range check generated by DRF from the model-level validators
`MinValueValidator(1)` / `MaxValueValidator(10)` on `Review.score`
(`reviews/models.py`). -/
def scoreValid (v : Int) : Bool :=
  decide (1 ≤ v) && decide (v ≤ 10)

/-- `ReviewSerializer.validate_score` (`reviews/serializers.py`): the Python
chained comparison `0 > value > 10` means `0 > value and value > 10`; the
method raises only when that holds. -/
def serializerScoreCheck (v : Int) : Bool :=
  !(decide (0 > v) && decide (v > 10))

/-- Auto-increment primary key for a new review row. -/
def nextReviewId (s : Store) : Nat :=
  s.reviews.foldr (fun r m => max r.id m) 0 + 1

/-- The review row saved by `perform_create` (`ReviewViewSet`,
`api/views.py`): the requesting user becomes the author and the title comes
from the URL. -/
def newReviewRow (s : Store) (titleId authorId : Nat) (text : String)
    (score : Int) : Review :=
  { id := nextReviewId s, titleId := titleId, authorId := some authorId
  , text := text, score := score }

/-- POST `/titles/{title_id}/reviews/` as executed by `ReviewViewSet`
(`api/views.py`) with `ReviewSerializer` (`reviews/serializers.py`):
field validation of `score` (model validators, then the serializer-level
`validate_score`), then `ReviewSerializer.validate` which resolves the
title with `get_object_or_404` and rejects a second review by the same
author on the same title, then `perform_create` saving the review with
the requesting user as author. -/
def createReview (s : Store) (titleId authorId : Nat) (text : String)
    (score : Int) : Except ApiError Store :=
  if !(scoreValid score) then Except.error (ApiError.validation "score")
  else if !(serializerScoreCheck score) then
    Except.error (ApiError.validation "score_scale")
  else if !(s.titles.any (fun ti => ti.id == titleId)) then
    Except.error ApiError.notFound
  else if s.reviews.any
      (fun r => r.titleId == titleId && r.authorId == some authorId) then
    Except.error (ApiError.validation "unique_review")
  else
    Except.ok
      { s with reviews := s.reviews ++ [newReviewRow s titleId authorId text score] }

/-- PATCH of a single review: DRF partial update through `ReviewSerializer`;
a provided `score` passes the same field validators, the instance is looked
up by id (404 when absent), and `validate` does not reject non-POST
requests. -/
def updateReview (s : Store) (reviewId : Nat) (newText : Option String)
    (newScore : Option Int) : Except ApiError Store :=
  if !(s.reviews.any (fun r => r.id == reviewId)) then
    Except.error ApiError.notFound
  else
    match newScore with
    | some v =>
        if !(scoreValid v) then Except.error (ApiError.validation "score")
        else if !(serializerScoreCheck v) then
          Except.error (ApiError.validation "score_scale")
        else
          Except.ok
            { s with reviews := s.reviews.map (fun r =>
                if r.id == reviewId then
                  { r with text := newText.getD r.text, score := v }
                else r) }
    | none =>
        Except.ok
          { s with reviews := s.reviews.map (fun r =>
              if r.id == reviewId then
                { r with text := newText.getD r.text }
              else r) }

/-- DELETE of a review: the row is removed and, by
`Comment.review = ForeignKey(Review, on_delete=CASCADE)`
(`reviews/models.py`), its comments are removed with it. -/
def deleteReview (s : Store) (reviewId : Nat) : Store :=
  { s with
    reviews := s.reviews.filter (fun r => r.id != reviewId),
    comments := s.comments.filter (fun c => c.reviewId != reviewId) }

/-- DELETE `/titles/{id}/`: the Django deletion collector follows
`Review.title = ForeignKey(Title, on_delete=CASCADE)` and
`Comment.review = ForeignKey(Review, on_delete=CASCADE)`
(`reviews/models.py`), so the title row, its review rows, and the comment
rows of those reviews are all removed. -/
def deleteTitle (s : Store) (t : Nat) : Store :=
  let deadReviewIds := (s.reviews.filter (fun r => r.titleId == t)).map Review.id
  { s with
    titles := s.titles.filter (fun ti => ti.id != t),
    reviews := s.reviews.filter (fun r => r.titleId != t),
    comments := s.comments.filter (fun c => !(deadReviewIds.contains c.reviewId)) }

/-- DELETE `/categories/{slug}/`:
`Title.category = ForeignKey(Category, on_delete=SET_NULL, null=True)`
(`reviews/models.py`), so deleting a category clears the reference on every
title that pointed at it and touches nothing else. -/
def deleteCategory (s : Store) (c : Nat) : Store :=
  { s with
    categories := s.categories.filter (fun cat => cat.id != c),
    titles := s.titles.map (fun ti =>
      if ti.categoryId == some c then { ti with categoryId := none } else ti) }

/-- HTTP methods used by the API (`http_method_names` plus the DRF safe
methods). -/
inductive HttpMethod where
  | get | head | options | post | put | patch | delete
deriving Repr, DecidableEq

/-- `rest_framework.permissions.SAFE_METHODS`: GET, HEAD, OPTIONS. -/
def isSafeMethod : HttpMethod → Bool
  | HttpMethod.get => true
  | HttpMethod.head => true
  | HttpMethod.options => true
  | _ => false

/-- `IsAauthenticatedOrReadOnly` has `request.user` set to `AnonymousUser`
for unauthenticated requests; the request user is modelled as
`Option UserRec`, `none` meaning anonymous (`is_authenticated` false). -/
def isAuthenticated (u : Option UserRec) : Bool :=
  u.isSome

/-- DRF `IsAuthenticatedOrReadOnly.has_permission`: safe method, or an
authenticated request user. -/
def isAuthenticatedOrReadOnly (m : HttpMethod) (u : Option UserRec) : Bool :=
  isSafeMethod m || isAuthenticated u

/-- `IsAdmin.has_permission` (`users/permissions.py`):
`request.user.is_authenticated and request.user.is_admin`. -/
def isAdminPermission (u : Option UserRec) : Bool :=
  match u with
  | none => false
  | some v => v.is_admin

/-- `IsAdminOrReadOnly.has_permission` (`users/permissions.py`): safe method,
or authenticated with `is_admin`. -/
def isAdminOrReadOnly (m : HttpMethod) (u : Option UserRec) : Bool :=
  isSafeMethod m ||
    (match u with
     | none => false
     | some v => v.is_admin)

/-- `IsAdminModeratorOwnerOrReadOnly.has_object_permission`
(`users/permissions.py`): safe method, or authenticated and
(`is_admin` or `is_moderator` or `obj.author == request.user`);
`objAuthor` is the author id of the review/comment row. -/
def isAdminModeratorOwnerOrReadOnly (m : HttpMethod) (u : Option UserRec)
    (objAuthor : Option Nat) : Bool :=
  isSafeMethod m ||
    (match u with
     | none => false
     | some v => v.is_admin || v.is_moderator || objAuthor == some v.id)

/-- Full DRF decision for an object-level request on a review or comment
(`ReviewViewSet` / `CommentViewSet`, `api/views.py`): every permission
class passes `has_permission` (`IsAuthenticatedOrReadOnly`; the
owner/moderator/admin class keeps the `BasePermission` default of `True`)
and every class passes `has_object_permission` (`IsAuthenticatedOrReadOnly`
keeps the default `True`; the owner/moderator/admin class applies its
check). -/
def reviewObjectRequestAllowed (m : HttpMethod) (u : Option UserRec)
    (objAuthor : Option Nat) : Bool :=
  isAuthenticatedOrReadOnly m u && isAdminModeratorOwnerOrReadOnly m u objAuthor

/-- Full DRF decision for POST (create) on a review or comment collection:
only `has_permission` runs, and only `IsAuthenticatedOrReadOnly` constrains
it. -/
def reviewCreateAllowed (u : Option UserRec) : Bool :=
  isAuthenticatedOrReadOnly HttpMethod.post u

/-- The user table. -/
structure UStore where
  users : List UserRec
deriving Repr, DecidableEq

/-- Modelled from the spec: `users/constants.py` is not under `src/`; the
spec fixes the reserved username ("username `me` is reserved and rejected",
and `validate_username_not_me` in `users/validators.py` compares against
`FORBIDDEN_USERNAME`). -/
def FORBIDDEN_USERNAME : String := "me"

/-- `validate_username_not_me` (`users/validators.py`) as a predicate: the
validator raises exactly when the value equals `FORBIDDEN_USERNAME`. -/
def usernameNotMe (uname : String) : Bool :=
  !(uname == FORBIDDEN_USERNAME)

/-- Character class of the username pattern `^[\w.@+-]+\Z`
(`users/models.py`). -/
def usernameCharOk (c : Char) : Bool :=
  c.isAlphanum || c == '_' || c == '.' || c == '@' || c == '+' || c == '-'

/-- Username pattern check of `SignupSerializer.username`
(`users/serializers.py`); the pattern constant lives in the absent
`users/constants.py`, modelled from the spec ("username (unique,
pattern-restricted, not \"me\")") as the regex written out in
`users/models.py`. -/
def usernameRegexOk (uname : String) : Bool :=
  uname.length > 0 && uname.toList.all usernameCharOk

/-- Outcome of POST `/auth/signup/` (`SignupView.post`, `users/views.py`). -/
inductive SignupOutcome where
  | ok200 : String → String → SignupOutcome
  | badRequest : String → SignupOutcome
  | error500 : SignupOutcome
deriving Repr, DecidableEq

/-- `SignupSerializer.is_valid` (`users/serializers.py`): field validators
(`EmailField` format — abstracted as the parameter `emailValid` —, then the
username pattern and `validate_username_not_me`), then
`SignupSerializer.validate`, which rejects an email bound to a different
username and a username bound to a different email. Returns the failing
field, or `none` when valid. -/
def signupValidate (emailValid : String → Bool) (s : UStore)
    (username email : String) : Option String :=
  if !(emailValid email) then some "email_format"
  else if !(usernameRegexOk username) then some "username_format"
  else if !(usernameNotMe username) then some "username_me"
  else if s.users.any (fun u => u.email == email && u.username != username) then
    some "email_taken"
  else if s.users.any (fun u => u.username == username && u.email != email) then
    some "username_taken"
  else none

/-- Overwrite the stored `confirmation_code` of one user row
(`user.confirmation_code = ...; user.save()`). -/
def setUserCode (s : UStore) (uid : Nat) (code : String) : UStore :=
  { users := s.users.map (fun u =>
      if u.id == uid then { u with confirmationCode := code } else u) }

/-- Auto-increment primary key for a new user row. -/
def nextUserId (s : UStore) : Nat :=
  s.users.foldr (fun u m => max u.id m) 0 + 1

/-- `SignupView.post` (`users/views.py`). The view first checks
`User.objects.filter(username=..., email=...).exists()`; on a hit it
regenerates the confirmation code, saves it, and sends the email without
ever running the serializer. Otherwise `serializer.is_valid
(raise_exception=True)` runs, a user row is created, the code is generated
and saved, and the email is sent. `send_confirmation_email`
(`users/service.py`) catches any send error and returns a 500 response,
modelled by the `emailOk` flag; the token generator is abstracted as
`makeCode`. -/
def signupPost (emailValid : String → Bool) (makeCode : UserRec → String)
    (emailOk : Bool) (s : UStore) (username email : String) :
    SignupOutcome × UStore :=
  match s.users.find? (fun u => u.username == username && u.email == email) with
  | some user =>
      let s1 := setUserCode s user.id (makeCode user)
      if emailOk then (SignupOutcome.ok200 email username, s1)
      else (SignupOutcome.error500, s1)
  | none =>
      match signupValidate emailValid s username email with
      | some f => (SignupOutcome.badRequest f, s)
      | none =>
          let newUser : UserRec :=
            { id := nextUserId s, username := username, email := email
            , role := "user", is_superuser := false
            , confirmationCode := "", isActive := true }
          let s1 : UStore := { users := s.users ++ [newUser] }
          let s2 := setUserCode s1 newUser.id (makeCode newUser)
          if emailOk then (SignupOutcome.ok200 email username, s2)
          else (SignupOutcome.error500, s2)

/-- Outcome of POST `/auth/token/` (`TokenObtainView.post`,
`users/views.py`). -/
inductive TokenOutcome where
  | okToken : String → TokenOutcome
  | badRequestCode : TokenOutcome
  | notFound : TokenOutcome
deriving Repr, DecidableEq

/-- `TokenObtainView.post` (`users/views.py`) with `TokenSerializer.validate`
(`users/serializers.py`): the serializer resolves the user by username
(`get_object_or_404`), rejects a blank or mismatching stored
`confirmation_code`; the view then applies
`default_token_generator.check_token` — a stateless check depending only on
the user row and the presented code, abstracted as `checkToken` — and mints
an access token (`mkToken`). No user field is written anywhere on this
path, so the store comes back unchanged. -/
def tokenObtain (checkToken : UserRec → String → Bool)
    (mkToken : UserRec → String) (s : UStore) (username code : String) :
    TokenOutcome × UStore :=
  match s.users.find? (fun u => u.username == username) with
  | none => (TokenOutcome.notFound, s)
  | some user =>
      if code == "" then (TokenOutcome.badRequestCode, s)
      else if user.confirmationCode != code then (TokenOutcome.badRequestCode, s)
      else if !(checkToken user code) then (TokenOutcome.badRequestCode, s)
      else (TokenOutcome.okToken (mkToken user), s)

end YaMDb

namespace YaMDb

/-- Concrete store for exercising the rating computation: one title with
two attached reviews, scores 8 and 7. -/
def ratingStore87 : Store :=
  { categories := []
  , titles := [{ id := 1, name := "T", year := 2020, categoryId := none
               , description := none, genreIds := [] }]
  , reviews :=
      [ { id := 1, titleId := 1, authorId := some 10, text := "a", score := 8 }
      , { id := 2, titleId := 1, authorId := some 11, text := "b", score := 7 } ]
  , comments := [] }

/-- Concrete store with review scores 8 and 6 on title 1 (the example
sequence of the spec after the second review is added). -/
def ratingStore86 : Store :=
  { categories := []
  , titles := [{ id := 1, name := "T", year := 2020, categoryId := none
               , description := none, genreIds := [] }]
  , reviews :=
      [ { id := 1, titleId := 1, authorId := some 10, text := "a", score := 8 }
      , { id := 2, titleId := 1, authorId := some 11, text := "b", score := 6 } ]
  , comments := [] }

/-- Number of stored reviews by author `a` on title `t`. -/
def pairCount (s : Store) (t a : Nat) : Nat :=
  (s.reviews.filter (fun r => r.titleId == t && r.authorId == some a)).length

/-- The invariant of `Review.Meta.constraints` (`reviews/models.py`,
`UniqueConstraint(fields=('title', 'author'))`): at most one review per
(title, author) pair. -/
def reviewPairUnique (s : Store) : Prop :=
  ∀ t a, pairCount s t a ≤ 1

/-- Store with one title and one review by author 5 on it. -/
def oneReviewStore : Store :=
  { categories := []
  , titles := [{ id := 1, name := "T", year := 2020, categoryId := none
               , description := none, genreIds := [] }]
  , reviews := [{ id := 1, titleId := 1, authorId := some 5
                , text := "first", score := 8 }]
  , comments := [] }

/-- Store with two titles, reviews on both, and comments on those reviews,
for exercising the cascade delete. -/
def cascadeStore : Store :=
  { categories := []
  , titles :=
      [ { id := 1, name := "A", year := 2000, categoryId := none
        , description := none, genreIds := [] }
      , { id := 2, name := "B", year := 2001, categoryId := none
        , description := none, genreIds := [] } ]
  , reviews :=
      [ { id := 1, titleId := 1, authorId := some 5, text := "r1", score := 8 }
      , { id := 2, titleId := 2, authorId := some 5, text := "r2", score := 6 } ]
  , comments :=
      [ { id := 1, reviewId := 1, authorId := some 6, text := "c1" }
      , { id := 2, reviewId := 2, authorId := some 6, text := "c2" } ] }

/-- Store with a category referenced by one title and a review/comment on
that title, for exercising SET_NULL on category deletion. -/
def categoryStore : Store :=
  { categories := [{ id := 3, name := "Films", slug := "films" }]
  , titles :=
      [ { id := 1, name := "A", year := 2000, categoryId := some 3
        , description := some "d", genreIds := [4] } ]
  , reviews :=
      [ { id := 1, titleId := 1, authorId := some 5, text := "r1", score := 8 } ]
  , comments :=
      [ { id := 1, reviewId := 1, authorId := some 6, text := "c1" } ] }

/-- A superuser whose stored role is the plain `user` role. -/
def superuserPlainRole : UserRec :=
  { id := 1, username := "su", email := "su@x.io", role := "user"
  , is_superuser := true, confirmationCode := "", isActive := true }

/-- A regular authenticated user with role `user`. -/
def plainUser : UserRec :=
  { id := 9, username := "bob", email := "bob@x.io", role := "user"
  , is_superuser := false, confirmationCode := "", isActive := true }

/-- User table already holding a user whose username is the reserved
string `me`. -/
def meUserStore : UStore :=
  { users := [{ id := 1, username := "me", email := "me@x.io", role := "user"
              , is_superuser := false, confirmationCode := "OLD"
              , isActive := true }] }

/-- User table with one confirmed user holding a stored confirmation code. -/
def tokenStore : UStore :=
  { users := [{ id := 2, username := "alice", email := "a@x.io"
              , role := "user", is_superuser := false
              , confirmationCode := "SECRET", isActive := true }] }

/-- Truncation is the identity on integers. -/
theorem pyInt_intCast (k : ℤ) : pyInt (k : ℚ) = k := by
  unfold pyInt
  split <;> simp

/-- Claim C1: the rating exposed by the read interface is claimed to equal
the arithmetic average of the scores of the title's reviews. On a title
with reviews scored 8 and 7 the arithmetic average is 15/2, but the
exposed rating is 7 — the `IntegerField` of `TitleReadSerializer`
truncates the annotated average — so the claim fails. -/
theorem exposedRating_not_average :
    exposedRating ratingStore87 1 = some 7 ∧
    avgRating ratingStore87 1 = some (15 / 2 : ℚ) ∧
    Option.map (fun z => ((z : ℤ) : ℚ)) (exposedRating ratingStore87 1) ≠
      avgRating ratingStore87 1 := by
  have h1 : avgRating ratingStore87 1 = some (15 / 2 : ℚ) := by
    simp [avgRating, titleScores, ratingStore87]
    norm_num
  have h2 : exposedRating ratingStore87 1 = some 7 := by
    simp [exposedRating, h1, pyInt]
    norm_num
  refine ⟨h2, h1, ?_⟩
  rw [h1, h2]
  simp
  norm_num

/-- Claim C1 (amended): the exposed rating is `null` exactly when the title
has no reviews; otherwise it is the Python `int(...)` truncation of the
arithmetic average of the scores, which coincides with the average whenever
the average is an integer (as in all the spec's examples). -/
theorem exposedRating_is_truncated_average (s : Store) (t : Nat) :
    (exposedRating s t = none ↔ titleScores s t = []) ∧
    (∀ q : ℚ, avgRating s t = some q → exposedRating s t = some (pyInt q)) ∧
    (∀ k : ℤ, avgRating s t = some (k : ℚ) → exposedRating s t = some k) := by
  refine ⟨?_, ?_, ?_⟩
  · unfold exposedRating avgRating
    by_cases h : (titleScores s t).length = 0
    · simp [h, List.length_eq_zero.mp h]
    · simp [h]
      intro hc
      exact h (by simp [hc])
  · intro q hq
    simp [exposedRating, hq]
  · intro k hk
    simp [exposedRating, hk, pyInt_intCast]

/-- Witness for the amended claim C1 at the spec's own example: scores 8
and 6 average to the integer 7 and the exposed rating is 7. -/
theorem exposedRating_is_truncated_average_witness :
    exposedRating ratingStore86 1 = some 7 :=
  (exposedRating_is_truncated_average ratingStore86 1).2.2 7 (by
    simp [avgRating, titleScores, ratingStore86]
    norm_num)

/-- `ReviewSerializer.validate_score` never rejects any value: the Python
chained comparison `0 > value > 10` requires a value both negative and
greater than ten. -/
theorem serializerScoreCheck_true (v : Int) : serializerScoreCheck v = true := by
  simp [serializerScoreCheck]
  omega

/-- Claim C2: creating a review preserves the at-most-one-review-per
(title, author) invariant, and a second POST by the same author on the
same title is rejected (the store is returned unchanged inside the
error-free `Except`). -/
theorem review_unique_per_pair (s : Store) (t a : Nat) (txt : String)
    (sc : Int) :
    (∀ s', createReview s t a txt sc = Except.ok s' →
      reviewPairUnique s → reviewPairUnique s') ∧
    ((∃ r ∈ s.reviews, r.titleId = t ∧ r.authorId = some a) →
      ∃ e, createReview s t a txt sc = Except.error e) := by
  constructor
  · intro s' hok hu
    unfold createReview at hok
    split at hok
    · exact absurd hok (by simp)
    split at hok
    · exact absurd hok (by simp)
    split at hok
    · exact absurd hok (by simp)
    split at hok
    · exact absurd hok (by simp)
    rename_i h1 h2 h3 h4
    rw [Except.ok.injEq] at hok
    subst hok
    intro t' a'
    have h4' : ∀ r ∈ s.reviews,
        ¬(r.titleId == t && r.authorId == some a) = true := by
      intro r hr
      intro hp
      exact h4 (List.any_eq_true.mpr ⟨r, hr, hp⟩)
    unfold pairCount
    simp only [List.filter_append, List.length_append]
    by_cases hta : t' = t ∧ a' = a
    · obtain ⟨hT, hA⟩ := hta
      subst hT
      subst hA
      have hzero : (s.reviews.filter
          (fun r => r.titleId == t' && r.authorId == some a')).length = 0 := by
        rw [List.length_eq_zero, List.filter_eq_nil_iff]
        exact h4'
      rw [hzero]
      have hle : (List.filter (fun r => r.titleId == t' && r.authorId == some a')
          [newReviewRow s t' a' txt sc]).length ≤ 1 := by
        cases hpr : ((newReviewRow s t' a' txt sc).titleId == t' &&
            (newReviewRow s t' a' txt sc).authorId == some a') <;>
          simp [List.filter, hpr]
      omega
    · have hpr : ((t == t') && (a == a')) = false := by
        by_cases hT : t = t'
        · have hA : (a == a') = false := by
            rw [beq_eq_false_iff_ne]
            intro hsome
            exact hta ⟨hT.symm, hsome.symm⟩
          simp [hA]
        · have hTb : (t == t') = false := by
            rw [beq_eq_false_iff_ne]
            exact hT
          simp [hTb]
      have hnew : (([newReviewRow s t a txt sc] : List Review).filter
            (fun r => r.titleId == t' && r.authorId == some a')).length = 0 := by
        simp [List.filter, newReviewRow, hpr]
      rw [hnew]
      have := hu t' a'
      unfold pairCount at this
      omega
  · rintro ⟨r, hr, hrt, hra⟩
    have hany : s.reviews.any
        (fun x => x.titleId == t && x.authorId == some a) = true := by
      rw [List.any_eq_true]
      exact ⟨r, hr, by simp [hrt, hra]⟩
    by_cases h1 : scoreValid sc
    · by_cases h3 : s.titles.any (fun ti => ti.id == t)
      · exact ⟨ApiError.validation "unique_review", by
          simp [createReview, h1, serializerScoreCheck_true, h3, hany]⟩
      · exact ⟨ApiError.notFound, by
          simp only [Bool.not_eq_true] at h3
          simp [createReview, h1, serializerScoreCheck_true, h3]⟩
    · exact ⟨ApiError.validation "score", by
        simp only [Bool.not_eq_true] at h1
        simp [createReview, h1]⟩

/-- Witness for claim C2: on the concrete one-review store, creating is
invariant-preserving from the empty situation and the duplicate POST by
author 5 on title 1 is rejected. -/
theorem review_unique_per_pair_witness :
    ∃ e, createReview oneReviewStore 1 5 "second" 6 = Except.error e :=
  (review_unique_per_pair oneReviewStore 1 5 "second" 6).2
    ⟨{ id := 1, titleId := 1, authorId := some 5, text := "first", score := 8 }
    , by simp [oneReviewStore], rfl, rfl⟩

/-- Claim C3: a score outside the inclusive range [1,10] is rejected both
on review creation and on review update — the operation returns a
validation (or, for an absent instance, not-found) error and no new store
is produced — while every score inside [1,10] passes the range check
generated from the model-level validators. -/
theorem score_range_enforced (s : Store) (t a rid : Nat) (txt : String)
    (nt : Option String) (sc : Int) :
    ((sc < 1 ∨ 10 < sc) →
      (∃ e, createReview s t a txt sc = Except.error e) ∧
      (∃ e, updateReview s rid nt (some sc) = Except.error e)) ∧
    (1 ≤ sc → sc ≤ 10 → scoreValid sc = true) := by
  constructor
  · intro hout
    have hsv : scoreValid sc = false := by
      simp [scoreValid]
      omega
    constructor
    · exact ⟨ApiError.validation "score", by simp [createReview, hsv]⟩
    · by_cases hex : s.reviews.any (fun r => r.id == rid)
      · exact ⟨ApiError.validation "score", by simp [updateReview, hex, hsv]⟩
      · exact ⟨ApiError.notFound, by
          simp only [Bool.not_eq_true] at hex
          simp [updateReview, hex]⟩
  · intro h1 h2
    simp [scoreValid]
    omega

/-- Witness for claim C3: score 11 is rejected on create and update of the
one-review store, and score 10 passes the range check. -/
theorem score_range_enforced_witness :
    (∃ e, createReview oneReviewStore 1 6 "bad" 11 = Except.error e) ∧
    (∃ e, updateReview oneReviewStore 1 none (some 11) = Except.error e) ∧
    scoreValid 10 = true :=
  ⟨((score_range_enforced oneReviewStore 1 6 1 "bad" none 11).1
      (Or.inr (by norm_num))).1,
   ((score_range_enforced oneReviewStore 1 6 1 "bad" none 11).1
      (Or.inr (by norm_num))).2,
   (score_range_enforced oneReviewStore 1 6 1 "x" none 10).2
      (by norm_num) (by norm_num)⟩

/-- Claim C4: deleting a title removes the title, every review attached to
it, and every comment attached to those reviews; reviews of other titles,
and comments whose review does not belong to the deleted title, survive. -/
theorem deleteTitle_cascades (s : Store) (t : Nat) :
    (∀ ti ∈ (deleteTitle s t).titles, ti.id ≠ t) ∧
    (∀ r ∈ (deleteTitle s t).reviews, r.titleId ≠ t) ∧
    (∀ c ∈ (deleteTitle s t).comments, ∀ r ∈ s.reviews,
      r.titleId = t → c.reviewId ≠ r.id) ∧
    (∀ r ∈ s.reviews, r.titleId ≠ t → r ∈ (deleteTitle s t).reviews) ∧
    (∀ c ∈ s.comments,
      (∀ r ∈ s.reviews, r.titleId = t → c.reviewId ≠ r.id) →
      c ∈ (deleteTitle s t).comments) := by
  refine ⟨?_, ?_, ?_, ?_, ?_⟩
  · intro ti hti
    simp only [deleteTitle, List.mem_filter] at hti
    simpa using hti.2
  · intro r hr
    simp only [deleteTitle, List.mem_filter] at hr
    simpa using hr.2
  · intro c hc r hr hrt
    simp only [deleteTitle, List.mem_filter] at hc
    have hnotin : c.reviewId ∉
        (s.reviews.filter (fun x => x.titleId == t)).map Review.id := by
      simpa using hc.2
    intro heq
    exact hnotin (List.mem_map.mpr ⟨r, List.mem_filter.mpr
      ⟨hr, by simp [hrt]⟩, heq.symm⟩)
  · intro r hr hne
    simp only [deleteTitle, List.mem_filter]
    exact ⟨hr, by simpa using hne⟩
  · intro c hc hprop
    simp only [deleteTitle, List.mem_filter]
    refine ⟨hc, ?_⟩
    simp only [Bool.not_eq_eq_eq_not, Bool.not_true]
    simp only [List.contains_eq_any_beq]
    rw [List.any_eq_false]
    intro x hx
    simp only [List.mem_map] at hx
    obtain ⟨r, hrf, hrid⟩ := hx
    rw [List.mem_filter] at hrf
    have hrt : r.titleId = t := by simpa using hrf.2
    simp only [beq_eq_false_iff_ne, ne_eq]
    intro hxeq
    exact hprop r hrf.1 hrt ((beq_iff_eq.mp hxeq).trans hrid.symm)

/-- Witness for claim C4 on the concrete two-title store: the review and
comment of the untouched title survive deleting title 1. -/
theorem deleteTitle_cascades_witness :
    ({ id := 2, titleId := 2, authorId := some 5, text := "r2", score := 6 }
      : Review) ∈ (deleteTitle cascadeStore 1).reviews ∧
    ({ id := 2, reviewId := 2, authorId := some 6, text := "c2" }
      : Comment) ∈ (deleteTitle cascadeStore 1).comments :=
  ⟨(deleteTitle_cascades cascadeStore 1).2.2.2.1 _ (by simp [cascadeStore])
      (by decide),
   (deleteTitle_cascades cascadeStore 1).2.2.2.2 _ (by simp [cascadeStore])
      (by decide)⟩

/-- Claim C5: deleting a category leaves reviews and comments untouched,
keeps every title (same count; a referencing title survives with only its
category reference cleared, a non-referencing title survives unchanged),
and removes the category row. -/
theorem deleteCategory_sets_null (s : Store) (c : Nat) :
    (deleteCategory s c).reviews = s.reviews ∧
    (deleteCategory s c).comments = s.comments ∧
    (deleteCategory s c).titles.length = s.titles.length ∧
    (∀ cat ∈ (deleteCategory s c).categories, cat.id ≠ c) ∧
    (∀ ti ∈ s.titles, ti.categoryId = some c →
      { ti with categoryId := none } ∈ (deleteCategory s c).titles) ∧
    (∀ ti ∈ s.titles, ti.categoryId ≠ some c →
      ti ∈ (deleteCategory s c).titles) := by
  refine ⟨rfl, rfl, by simp [deleteCategory], ?_, ?_, ?_⟩
  · intro cat hcat
    simp only [deleteCategory, List.mem_filter] at hcat
    simpa using hcat.2
  · intro ti hti hcat
    simp only [deleteCategory]
    refine List.mem_map.mpr ⟨ti, hti, ?_⟩
    simp [hcat]
  · intro ti hti hne
    simp only [deleteCategory]
    refine List.mem_map.mpr ⟨ti, hti, ?_⟩
    have hb : (ti.categoryId == some c) = false := by
      rw [beq_eq_false_iff_ne]
      exact hne
    simp [hb]

/-- Witness for claim C5 on the concrete store: after deleting category 3
the referencing title survives with a cleared category and unchanged other
fields, and the reviews are untouched. -/
theorem deleteCategory_sets_null_witness :
    ({ id := 1, name := "A", year := 2000, categoryId := none
     , description := some "d", genreIds := [4] } : Title) ∈
      (deleteCategory categoryStore 3).titles ∧
    (deleteCategory categoryStore 3).reviews = categoryStore.reviews :=
  ⟨(deleteCategory_sets_null categoryStore 3).2.2.2.2.1
      { id := 1, name := "A", year := 2000, categoryId := some 3
      , description := some "d", genreIds := [4] }
      (by simp [categoryStore]) rfl,
   (deleteCategory_sets_null categoryStore 3).1⟩

/-- Claim C6: update/delete on a review or comment is claimed to be allowed
exactly for the author or a user whose role is `moderator` or `admin`.
A superuser whose stored role is `user` and who is not the author is
nevertheless allowed (`User.is_admin` is true for any superuser), so the
claim's "every other mutation attempt is rejected" fails. -/
theorem review_permission_counterexample :
    reviewObjectRequestAllowed HttpMethod.patch (some superuserPlainRole)
      (some 2) = true ∧
    superuserPlainRole.role ≠ "moderator" ∧
    superuserPlainRole.role ≠ "admin" ∧
    (some superuserPlainRole.id : Option Nat) ≠ some 2 := by
  decide

/-- Claim C6 (amended): reads are open to anyone, create requires any
authenticated user, and update/delete is allowed exactly when the requester
is authenticated and is the author, has role `moderator` or `admin`, or has
the superuser flag set (the `is_admin` capability). -/
theorem review_permission_characterization (m : HttpMethod)
    (u : Option UserRec) (a : Option Nat) :
    (isSafeMethod m = true → reviewObjectRequestAllowed m u a = true) ∧
    (reviewCreateAllowed u = true ↔ u.isSome = true) ∧
    ((m = HttpMethod.patch ∨ m = HttpMethod.delete) →
      (reviewObjectRequestAllowed m u a = true ↔
        ∃ v, u = some v ∧ (v.role = "admin" ∨ v.is_superuser = true ∨
          v.role = "moderator" ∨ a = some v.id))) := by
  refine ⟨?_, ?_, ?_⟩
  · intro hm
    simp [reviewObjectRequestAllowed, isAuthenticatedOrReadOnly,
      isAdminModeratorOwnerOrReadOnly, hm]
  · cases u <;>
      simp [reviewCreateAllowed, isAuthenticatedOrReadOnly, isAuthenticated,
        isSafeMethod]
  · intro hm
    have hms : isSafeMethod m = false := by
      rcases hm with h | h <;> subst h <;> rfl
    cases u with
    | none =>
        simp [reviewObjectRequestAllowed, isAuthenticatedOrReadOnly,
          isAuthenticated, hms]
    | some v =>
        simp [reviewObjectRequestAllowed, isAuthenticatedOrReadOnly,
          isAuthenticated, isAdminModeratorOwnerOrReadOnly, hms,
          UserRec.is_admin, UserRec.is_moderator, Bool.or_eq_true, beq_iff_eq]
        tauto

/-- Witness for the amended claim C6: the author of a review may delete it,
and any authenticated user may create. -/
theorem review_permission_characterization_witness :
    reviewObjectRequestAllowed HttpMethod.delete (some plainUser)
      (some plainUser.id) = true ∧
    reviewCreateAllowed (some plainUser) = true :=
  ⟨((review_permission_characterization HttpMethod.delete (some plainUser)
        (some plainUser.id)).2.2 (Or.inr rfl)).mpr
      ⟨plainUser, rfl, Or.inr (Or.inr (Or.inr rfl))⟩,
   (review_permission_characterization HttpMethod.get (some plainUser)
        none).2.1.mpr rfl⟩

/-- Claim C7: a signup request with username `me` is claimed to always be
rejected with no user record created or updated. `SignupView.post` checks
for an existing (username, email) row before running the serializer, so
when a user `me` with the given email exists the request succeeds with 200
and overwrites that row's confirmation code. -/
theorem signup_me_counterexample :
    (signupPost (fun _ => true) (fun _ => "NEW") true meUserStore
        "me" "me@x.io").1 = SignupOutcome.ok200 "me@x.io" "me" ∧
    (signupPost (fun _ => true) (fun _ => "NEW") true meUserStore
        "me" "me@x.io").2 =
      { users := [{ id := 1, username := "me", email := "me@x.io"
                  , role := "user", is_superuser := false
                  , confirmationCode := "NEW", isActive := true }] } := by
  constructor <;> rfl

/-- Claim C7 (amended): a signup request with username `me` is rejected with
a 400 validation error and an unchanged user table whenever no user row
with username `me` and the requested email already exists; only the
pre-existing-row re-issue path of `SignupView.post` bypasses the check. -/
theorem signup_me_rejected (ev : String → Bool) (mc : UserRec → String)
    (ok : Bool) (s : UStore) (email : String)
    (h : ∀ u ∈ s.users, ¬(u.username = "me" ∧ u.email = email)) :
    ∃ f, signupPost ev mc ok s "me" email = (SignupOutcome.badRequest f, s) := by
  have hfind : s.users.find?
      (fun u => u.username == "me" && u.email == email) = none := by
    rw [List.find?_eq_none]
    intro u hu
    simp only [Bool.and_eq_true, beq_iff_eq, not_and]
    intro h1 h2
    exact h u hu ⟨h1, h2⟩
  unfold signupPost
  rw [hfind]
  have hreg : usernameRegexOk "me" = true := by decide
  have hnm : usernameNotMe "me" = false := by decide
  by_cases he : ev email
  · have hv : signupValidate ev s "me" email = some "username_me" := by
      unfold signupValidate
      simp [he, hreg, hnm]
    rw [hv]
    exact ⟨"username_me", rfl⟩
  · have hv : signupValidate ev s "me" email = some "email_format" := by
      unfold signupValidate
      simp only [Bool.not_eq_true] at he
      simp [he]
    rw [hv]
    exact ⟨"email_format", rfl⟩

/-- Witness for the amended claim C7: with an empty user table, signup with
username `me` is rejected and the table stays empty. -/
theorem signup_me_rejected_witness :
    ∃ f, signupPost (fun _ => true) (fun _ => "C") true { users := [] }
        "me" "a@b.io" = (SignupOutcome.badRequest f, { users := [] }) :=
  signup_me_rejected (fun _ => true) (fun _ => "C") true { users := [] }
    "a@b.io" (by intro u hu; exact absurd hu (List.not_mem_nil u))

/-- Claim C8: a confirmation code is claimed to be single-use. The token
view never clears or invalidates the stored code (no user field is written,
and `default_token_generator.check_token` is a stateless function of the
unchanged user row), so presenting the same code right after a successful
exchange yields a second token. -/
theorem token_reuse_counterexample :
    tokenObtain (fun u c => u.confirmationCode == c) (fun _ => "TOK")
      tokenStore "alice" "SECRET" = (TokenOutcome.okToken "TOK", tokenStore) ∧
    tokenObtain (fun u c => u.confirmationCode == c) (fun _ => "TOK")
      (tokenObtain (fun u c => u.confirmationCode == c) (fun _ => "TOK")
        tokenStore "alice" "SECRET").2 "alice" "SECRET"
      = (TokenOutcome.okToken "TOK", tokenStore) := by
  constructor <;> rfl

/-- Claim C8 (amended): the token-obtain endpoint is stateless — it returns
the user table unchanged, so a confirmation code that once succeeded keeps
yielding tokens until a later signup overwrites the stored code. -/
theorem tokenObtain_stateless (ct : UserRec → String → Bool)
    (mk : UserRec → String) (s : UStore) (un code : String) :
    (tokenObtain ct mk s un code).2 = s ∧
    (∀ tk, (tokenObtain ct mk s un code).1 = TokenOutcome.okToken tk →
      (tokenObtain ct mk (tokenObtain ct mk s un code).2 un code).1
        = TokenOutcome.okToken tk) := by
  have hsnd : (tokenObtain ct mk s un code).2 = s := by
    unfold tokenObtain
    cases s.users.find? (fun u => u.username == un) with
    | none => rfl
    | some user =>
        cases h1 : (code == "") <;> cases h2 : (user.confirmationCode != code) <;>
          cases h3 : ct user code <;>
          simp [h1, h2, h3, bne_iff_ne, beq_iff_eq]
  refine ⟨hsnd, ?_⟩
  intro tk h1
  rw [hsnd]
  exact h1

/-- Witness for the amended claim C8: the concrete second exchange of the
same code succeeds. -/
theorem tokenObtain_stateless_witness :
    (tokenObtain (fun u c => u.confirmationCode == c) (fun _ => "TOK")
      (tokenObtain (fun u c => u.confirmationCode == c) (fun _ => "TOK")
        tokenStore "alice" "SECRET").2 "alice" "SECRET").1
      = TokenOutcome.okToken "TOK" :=
  (tokenObtain_stateless (fun u c => u.confirmationCode == c)
      (fun _ => "TOK") tokenStore "alice" "SECRET").2 "TOK" rfl

/-- Claim C9: when a signup request would have succeeded except that the
out-of-band email send fails, the endpoint returns the generic 500 outcome
and the user table is exactly the one the successful run would have
persisted — the already-saved user row and fresh confirmation code are
kept, not rolled back. -/
theorem signup_email_failure_persists (ev : String → Bool)
    (mc : UserRec → String) (s : UStore) (un em : String) (s1 : UStore)
    (h : signupPost ev mc true s un em = (SignupOutcome.ok200 em un, s1)) :
    signupPost ev mc false s un em = (SignupOutcome.error500, s1) := by
  unfold signupPost at h ⊢
  cases hf : s.users.find? (fun u => u.username == un && u.email == em) with
  | some user =>
      rw [hf] at h
      simp at h ⊢
      exact h
  | none =>
      rw [hf] at h
      cases hv : signupValidate ev s un em with
      | some f =>
          rw [hv] at h
          simp at h
      | none =>
          rw [hv] at h
          simp at h ⊢
          exact h

/-- Witness for claim C9: on the empty user table, the failing-email signup
returns 500 with the same persisted row (fresh user, code `C`) that the
successful signup persists. -/
theorem signup_email_failure_persists_witness :
    signupPost (fun _ => true) (fun _ => "C") false { users := [] }
        "bob" "b@x.io" =
      (SignupOutcome.error500,
        { users := [{ id := 1, username := "bob", email := "b@x.io"
                    , role := "user", is_superuser := false
                    , confirmationCode := "C", isActive := true }] }) :=
  signup_email_failure_persists (fun _ => true) (fun _ => "C") { users := [] }
    "bob" "b@x.io" _ rfl

/-- Claim C10: any user with the superuser flag passes the `is_admin`
capability and the admin-only permission gates (`IsAdmin` guarding user
management, `IsAdminOrReadOnly` guarding catalog writes) regardless of the
stored role, while `is_moderator` holds exactly when the stored role is
`moderator`. -/
theorem superuser_admin_capability (u : UserRec) (m : HttpMethod) :
    (u.is_superuser = true →
      u.is_admin = true ∧ isAdminPermission (some u) = true ∧
      isAdminOrReadOnly m (some u) = true) ∧
    (u.is_moderator = true ↔ u.role = "moderator") := by
  constructor
  · intro hsu
    refine ⟨?_, ?_, ?_⟩ <;>
      simp [UserRec.is_admin, isAdminPermission, isAdminOrReadOnly, hsu]
  · simp [UserRec.is_moderator]

/-- Witness for claim C10: the superuser with plain role `user` passes all
three admin gates, including non-safe catalog writes. -/
theorem superuser_admin_capability_witness :
    superuserPlainRole.is_admin = true ∧
    isAdminPermission (some superuserPlainRole) = true ∧
    isAdminOrReadOnly HttpMethod.post (some superuserPlainRole) = true :=
  (superuser_admin_capability superuserPlainRole HttpMethod.post).1 rfl

end YaMDb
